import Mathlib

/-
Verification of the Risk Estimation Service of the diabetic-ai-system
repository.  The core of the repository is the endpoint handler
`demo_analyze` in `src/backend/app/api/endpoints/prediction.py`, a pure
arithmetic transformation of a `ClinicalData` record (declared in
`src/backend/app/schemas/prediction.py`) into a `PredictionResponse`.
Python floats are modelled as exact rationals (ℚ), Python ints as ℤ/ℕ.
-/

namespace DiabeticAI

/-- Input schema `ClinicalData` (src/backend/app/schemas/prediction.py).
`age` carries the pydantic constraint `ge=0, le=120`, expressed below by
`ValidInput`; every other numeric field is unconstrained. -/
structure ClinicalData where
  age : ℤ
  gender : String
  bmi : ℚ
  hba1c : ℚ
  blood_glucose : ℚ
  blood_pressure_systolic : ℤ
  blood_pressure_diastolic : ℤ
  diabetes_duration : ℤ
  creatinine : ℚ
  cholesterol_total : ℚ
  cholesterol_ldl : ℚ
  cholesterol_hdl : ℚ
  triglycerides : ℚ
  has_hypertension : Bool := false
  smoking_status : String := "never"
  family_history : Bool := false

/-- A request body passes schema validation exactly when `age ∈ [0,120]`;
all other numeric fields are unconstrained. -/
def ValidInput (cd : ClinicalData) : Prop :=
  0 ≤ cd.age ∧ cd.age ≤ 120

instance (cd : ClinicalData) : Decidable (ValidInput cd) := by
  unfold ValidInput; infer_instance

/-- Schema `RiskScore` (src/backend/app/schemas/prediction.py). -/
structure RiskScore where
  value : ℚ
  category : String
  confidence : ℚ
deriving DecidableEq

/-- Source line `risk_factor = min(1.0, (hba1c / 10.0 + diabetes_duration / 20.0) / 2)`
(prediction.py line 18). -/
def risk_factor (cd : ClinicalData) : ℚ :=
  min 1 ((cd.hba1c / 10 + (cd.diabetes_duration : ℚ) / 20) / 2)

/-- The five DR-stage labels in the fixed order of prediction.py line 20. -/
def dr_classes : List String :=
  ["No DR", "Mild NPDR", "Moderate NPDR", "Severe NPDR", "PDR"]

/-- The unnormalized stage weights (prediction.py lines 21-27), the value the
variable `dr_probs` holds before the normalization step. -/
def dr_probs_raw (cd : ClinicalData) : List ℚ :=
  [ max 0 (0.8 - risk_factor cd),
    0.1,
    0.05 + risk_factor cd * 0.2,
    0.05 + risk_factor cd * 0.3,
    risk_factor cd * 0.2 ]

/-- Source line `total = sum(dr_probs)` (prediction.py line 28). -/
def total (cd : ClinicalData) : ℚ :=
  (dr_probs_raw cd).sum

/-- The normalized probabilities `dr_probs = [p / total for p in dr_probs]`
(prediction.py line 29). -/
def dr_probs (cd : ClinicalData) : List ℚ :=
  (dr_probs_raw cd).map (fun p => p / total cd)

/-- Model of `np.argmax` on a list: the index of the first occurrence of the
maximum element (numpy documents that ties resolve to the first occurrence).
Returns 0 on the empty list. -/
def np_argmax : List ℚ → ℕ
  | [] => 0
  | [_] => 0
  | x :: y :: xs =>
      if x < (y :: xs).getD (np_argmax (y :: xs)) 0 then np_argmax (y :: xs) + 1
      else 0

/-- Source line `predicted_idx = np.argmax(dr_probs)` (prediction.py line 30). -/
def predicted_idx (cd : ClinicalData) : ℕ :=
  np_argmax (dr_probs cd)

/-- Source expression `dr_classes[predicted_idx]` (prediction.py line 53). -/
def dr_stage (cd : ClinicalData) : String :=
  dr_classes.getD (predicted_idx cd) ""

/-- Source expression `dr_probs[predicted_idx]` (prediction.py line 54). -/
def dr_stage_probability (cd : ClinicalData) : ℚ :=
  (dr_probs cd).getD (predicted_idx cd) 0

/-- Source expression `dict(zip(dr_classes, dr_probs))` (prediction.py line 55); the five keys
are distinct so the dict is faithfully a five-entry association list. -/
def dr_class_probabilities (cd : ClinicalData) : List (String × ℚ) :=
  dr_classes.zip (dr_probs cd)

def glycemic_msg : String := "🎯 Improve glycemic control - Target HbA1c < 7%"
def bp_msg : String := "💊 Monitor and manage blood pressure"
def weight_msg : String := "🏃 Weight management recommended"
def smoking_msg : String := "🚭 Smoking cessation strongly recommended"
def urgent_msg : String := "👨‍⚕️ Urgent ophthalmologist consultation required"
def followup_msg : String := "📅 Schedule follow-up with eye specialist"
def continue_msg : String := "✅ Continue current management plan"

/-- The tier message appended by the `if risk_factor > 0.7 / elif > 0.4 /
else` chain (prediction.py lines 41-46). -/
def tier_msg (cd : ClinicalData) : String :=
  if risk_factor cd > 0.7 then urgent_msg
  else if risk_factor cd > 0.4 then followup_msg
  else continue_msg

/-- The recommendations list built by the sequence of conditional appends in
prediction.py lines 32-46: four independent threshold rules in fixed order,
then exactly one tier message. -/
def recommendations (cd : ClinicalData) : List String :=
  (if cd.hba1c > 7 then [glycemic_msg] else []) ++
  (if cd.blood_pressure_systolic > 130 then [bp_msg] else []) ++
  (if cd.bmi > 25 then [weight_msg] else []) ++
  (if cd.smoking_status = "current" then [smoking_msg] else []) ++
  [tier_msg cd]

/-- Source line `follow_up = 1 if risk_factor > 0.7 else 3 if risk_factor > 0.4 else 6`
(prediction.py line 48). -/
def follow_up (cd : ClinicalData) : ℕ :=
  if risk_factor cd > 0.7 then 1
  else if risk_factor cd > 0.4 then 3
  else 6

/-- Field `overall_risk_score` (prediction.py lines 56-60). -/
def overall_risk_score (cd : ClinicalData) : RiskScore :=
  { value := risk_factor cd,
    category :=
      if risk_factor cd > 0.7 then "High"
      else if risk_factor cd > 0.4 then "Moderate" else "Low",
    confidence := 0.88 }

/-- Field `nephropathy_risk` (prediction.py lines 61-65). -/
def nephropathy_risk (cd : ClinicalData) : RiskScore :=
  { value := min 1 (risk_factor cd * 1.1),
    category :=
      if risk_factor cd > 0.6 then "High"
      else if risk_factor cd > 0.3 then "Moderate" else "Low",
    confidence := 0.82 }

/-- Field `neuropathy_risk` (prediction.py lines 66-70). -/
def neuropathy_risk (cd : ClinicalData) : RiskScore :=
  { value := min 1 (risk_factor cd * 0.9),
    category :=
      if risk_factor cd > 0.7 then "High"
      else if risk_factor cd > 0.4 then "Moderate" else "Low",
    confidence := 0.79 }

/-- Field `cardiovascular_risk` (prediction.py lines 71-75). -/
def cardiovascular_risk (cd : ClinicalData) : RiskScore :=
  { value := min 1 (risk_factor cd * 1.05),
    category :=
      if risk_factor cd > 0.65 then "High"
      else if risk_factor cd > 0.35 then "Moderate" else "Low",
    confidence := 0.84 }

/-- The deterministic part of `PredictionResponse`
(src/backend/app/schemas/prediction.py).  `prediction_id`, `timestamp` and
`processing_time_ms` (uuid and wall-clock reads) and the presentational
`explanation` block are the impure/formatting fields of the response; no
claim references them and they are omitted from the model. -/
structure PredictionResponse where
  dr_stage : String
  dr_stage_probability : ℚ
  dr_class_probabilities : List (String × ℚ)
  overall_risk_score : RiskScore
  nephropathy_risk : RiskScore
  neuropathy_risk : RiskScore
  cardiovascular_risk : RiskScore
  recommendations : List String
  follow_up_months : ℕ
  model_version : String

/-- The HTTPException raised at prediction.py line 105. -/
structure HTTPException where
  status_code : ℕ
  detail : String
deriving DecidableEq

/-- The body of the `try:` block of `demo_analyze` (prediction.py lines
15-103), with its two genuinely fallible operations made explicit: the float
division `p / total` (ZeroDivisionError when `total == 0`) and the list
indexing `dr_classes[predicted_idx]` (IndexError when out of range).  On any
exception it returns the exception's message. -/
def demo_analyze_body (cd : ClinicalData) : Except String PredictionResponse :=
  if total cd = 0 then Except.error "float division by zero"
  else if predicted_idx cd < dr_classes.length then
    Except.ok
      { dr_stage := dr_stage cd,
        dr_stage_probability := dr_stage_probability cd,
        dr_class_probabilities := dr_class_probabilities cd,
        overall_risk_score := overall_risk_score cd,
        nephropathy_risk := nephropathy_risk cd,
        neuropathy_risk := neuropathy_risk cd,
        cardiovascular_risk := cardiovascular_risk cd,
        recommendations := recommendations cd,
        follow_up_months := follow_up cd,
        model_version := "v1.0.0-demo" }
  else Except.error "list index out of range"

/-- The full handler `demo_analyze` (prediction.py lines 13-105): the broad
`except Exception as e: raise HTTPException(status_code=500, detail=str(e))`
wraps any exception of the body into a 500 with the message as detail. -/
def demo_analyze (cd : ClinicalData) : Except HTTPException PredictionResponse :=
  match demo_analyze_body cd with
  | Except.ok r => Except.ok r
  | Except.error e => Except.error { status_code := 500, detail := e }

/-- The value `risk_factor` never exceeds 1 (the `min` clamp). -/
lemma risk_factor_le_one (cd : ClinicalData) : risk_factor cd ≤ 1 :=
  min_le_left _ _

/-- The sum of the unnormalized weights is `max 0 (0.8 - r) + 0.2 + 0.7*r`. -/
lemma total_eq (cd : ClinicalData) :
    total cd = max 0 (0.8 - risk_factor cd) + 0.2 + 0.7 * risk_factor cd := by
  simp only [total, dr_probs_raw, List.sum_cons, List.sum_nil]
  ring

/-- The sum of the unnormalized weights is strictly positive for every input,
valid or not. -/
lemma total_pos (cd : ClinicalData) : 0 < total cd := by
  rw [total_eq]
  rcases le_or_lt (0.8 - risk_factor cd) 0 with h | h
  · rw [max_eq_left h]
    have := risk_factor_le_one cd
    nlinarith
  · rw [max_eq_right h.le]
    nlinarith

/-- The function `np_argmax` returns an in-range index on a nonempty list. -/
lemma np_argmax_lt_length : ∀ l : List ℚ, l ≠ [] → np_argmax l < l.length
  | [], h => absurd rfl h
  | [_], _ => by simp [np_argmax]
  | x :: y :: xs, _ => by
      rw [np_argmax]
      split
      · have ih := np_argmax_lt_length (y :: xs) (by simp)
        simp only [List.length_cons] at ih ⊢
        omega
      · simp

/-- The element at `np_argmax l` is an upper bound of the list. -/
lemma np_argmax_is_max : ∀ l : List ℚ, ∀ j, j < l.length →
    l.getD j 0 ≤ l.getD (np_argmax l) 0
  | [], j, hj => by simp at hj
  | [x], j, hj => by
      have : j = 0 := by simpa using hj
      subst this
      simp [np_argmax]
  | x :: y :: xs, j, hj => by
      rw [np_argmax]
      split
      case isTrue h =>
        cases j with
        | zero => simpa using h.le
        | succ j =>
          have ih := np_argmax_is_max (y :: xs) j (by simpa using hj)
          simpa using ih
      case isFalse h =>
        push_neg at h
        cases j with
        | zero => simp
        | succ j =>
          have ih := np_argmax_is_max (y :: xs) j (by simpa using hj)
          simp only [List.getD_cons_succ, List.getD_cons_zero]
          exact le_trans ih h

/-- Every index strictly before `np_argmax l` holds a strictly smaller
element: `np_argmax` is the FIRST maximal index. -/
lemma np_argmax_first_max : ∀ l : List ℚ, ∀ j, j < np_argmax l →
    l.getD j 0 < l.getD (np_argmax l) 0
  | [], j, hj => by simp [np_argmax] at hj
  | [x], j, hj => by simp [np_argmax] at hj
  | x :: y :: xs, j, hj => by
      rw [np_argmax] at hj ⊢
      by_cases h : x < (y :: xs).getD (np_argmax (y :: xs)) 0
      · rw [if_pos h] at hj ⊢
        cases j with
        | zero => simpa using h
        | succ j =>
          have ih := np_argmax_first_max (y :: xs) j (by omega)
          simpa using ih
      · rw [if_neg h] at hj
        omega

lemma dr_probs_length (cd : ClinicalData) : (dr_probs cd).length = 5 := by
  simp [dr_probs, dr_probs_raw]

lemma dr_probs_ne_nil (cd : ClinicalData) : dr_probs cd ≠ [] := by
  intro h
  have := dr_probs_length cd
  rw [h] at this
  simp at this

/-- Summing a list divided elementwise by `t` divides the sum by `t`. -/
lemma list_sum_map_div (l : List ℚ) (t : ℚ) :
    (l.map (fun p => p / t)).sum = l.sum / t := by
  induction l with
  | nil => simp
  | cons x xs ih => simp [ih, add_div]

/-- The normalized probabilities always sum exactly to 1. -/
lemma dr_probs_sum (cd : ClinicalData) : (dr_probs cd).sum = 1 := by
  rw [dr_probs, list_sum_map_div]
  exact div_self (total_pos cd).ne'

/-- The second components of `dict(zip(dr_classes, dr_probs))` are exactly
the normalized probabilities. -/
lemma dr_class_probabilities_snd (cd : ClinicalData) :
    (dr_class_probabilities cd).map Prod.snd = dr_probs cd := by
  simp [dr_class_probabilities, dr_classes, dr_probs, dr_probs_raw, List.zip]

/-- A concrete well-formed input: age 50, hba1c 6, duration 4 years,
moderate vitals everywhere; `risk_factor` evaluates to 0.4. -/
def baseInput : ClinicalData :=
  { age := 50, gender := "female", bmi := 24, hba1c := 6, blood_glucose := 100,
    blood_pressure_systolic := 120, blood_pressure_diastolic := 80,
    diabetes_duration := 4, creatinine := 1, cholesterol_total := 180,
    cholesterol_ldl := 100, cholesterol_hdl := 50, triglycerides := 150 }

/-- A well-formed input whose numeric field `hba1c` is negative; the schema
admits it (only `age` is range-constrained), and `risk_factor` evaluates
to -0.5 on it. -/
def negInput : ClinicalData :=
  { baseInput with hba1c := -10, diabetes_duration := 0 }

/-- A well-formed input with `hba1c = 11.6`, `diabetes_duration = 0`, so
`risk_factor = 0.58` and the nephropathy value is `0.638`. -/
def nephInput : ClinicalData :=
  { baseInput with hba1c := 11.6, diabetes_duration := 0 }

/-- The worked-example input of the spec: hba1c 9.5, duration 15 years,
systolic 140, bmi 30, current smoker. -/
def severeInput : ClinicalData :=
  { age := 55, gender := "male", bmi := 30, hba1c := 9.5, blood_glucose := 180,
    blood_pressure_systolic := 140, blood_pressure_diastolic := 90,
    diabetes_duration := 15, creatinine := 1.2, cholesterol_total := 220,
    cholesterol_ldl := 140, cholesterol_hdl := 40, triglycerides := 200,
    has_hypertension := true, smoking_status := "current",
    family_history := true }

/-- C10: for every `ClinicalData` input, even outside the documented ranges,
the sum of the five unnormalized stage weights is strictly positive, so the
normalization step never divides by zero. -/
theorem C10_total_weight_pos (cd : ClinicalData) :
    0 < (dr_probs_raw cd).sum :=
  total_pos cd

/-- C2 counterexample: `negInput` is a valid input (age 50) whose `hba1c` is
-10, and its `risk_factor` is -1/2, outside [0,1]; the claim that
`risk_factor` lies in [0,1] for every valid input is false. -/
theorem C2_counterexample :
    ValidInput negInput ∧ risk_factor negInput = -(1/2) ∧
    ¬(0 ≤ risk_factor negInput) := by
  refine ⟨by decide, ?_, ?_⟩ <;>
    norm_num [risk_factor, negInput, baseInput, min_def]

/-- C2 amended: for every valid input, `risk_factor` equals
`min 1 ((hba1c/10 + diabetes_duration/20)/2)` and never exceeds 1; it lies
in [0,1] whenever `hba1c` and `diabetes_duration` are nonnegative (the
lower bound can fail when either is negative, which the schema permits). -/
theorem C2_risk_factor_amended (cd : ClinicalData) (h : ValidInput cd) :
    risk_factor cd =
      min 1 ((cd.hba1c / 10 + (cd.diabetes_duration : ℚ) / 20) / 2) ∧
    risk_factor cd ≤ 1 ∧
    (0 ≤ cd.hba1c → 0 ≤ cd.diabetes_duration → 0 ≤ risk_factor cd) := by
  refine ⟨rfl, risk_factor_le_one cd, fun h1 h2 => ?_⟩
  have h2q : (0:ℚ) ≤ (cd.diabetes_duration : ℚ) := by exact_mod_cast h2
  unfold risk_factor
  apply le_min (by norm_num)
  linarith

/-- Witness for C2 amended at `baseInput`. -/
theorem C2_risk_factor_amended_witness :
    ValidInput baseInput ∧
    (risk_factor baseInput =
      min 1 ((baseInput.hba1c / 10 + (baseInput.diabetes_duration : ℚ) / 20) / 2) ∧
     risk_factor baseInput ≤ 1 ∧
     (0 ≤ baseInput.hba1c → 0 ≤ baseInput.diabetes_duration →
        0 ≤ risk_factor baseInput)) :=
  ⟨by decide, C2_risk_factor_amended baseInput (by decide)⟩

/-- C1 counterexample: on the valid input `negInput` the first normalized
probability is 26/23 > 1, so the claim that every normalized probability
lies in [0,1] for every valid input is false. -/
theorem C1_counterexample :
    ValidInput negInput ∧
    ∃ p ∈ (dr_class_probabilities negInput).map Prod.snd, 1 < p := by
  refine ⟨by decide, ?_⟩
  have h : risk_factor negInput = -(1/2) := by
    norm_num [risk_factor, negInput, baseInput, min_def]
  refine ⟨26/23, ?_, by norm_num⟩
  simp [dr_class_probabilities, dr_classes, dr_probs, dr_probs_raw, total, h,
    max_def]
  norm_num

/-- C1 amended: for every valid input the five normalized probabilities in
`dr_class_probabilities` sum exactly to 1; each lies in [0,1] whenever
`hba1c` and `diabetes_duration` are nonnegative (with negative inputs,
which the schema permits, individual entries can leave [0,1]). -/
theorem C1_probabilities_amended (cd : ClinicalData) (h : ValidInput cd) :
    ((dr_class_probabilities cd).map Prod.snd).sum = 1 ∧
    (0 ≤ cd.hba1c → 0 ≤ cd.diabetes_duration →
      ∀ p ∈ (dr_class_probabilities cd).map Prod.snd, 0 ≤ p ∧ p ≤ 1) := by
  rw [dr_class_probabilities_snd]
  refine ⟨dr_probs_sum cd, fun h1 h2 p hp => ?_⟩
  have h2q : (0:ℚ) ≤ (cd.diabetes_duration : ℚ) := by exact_mod_cast h2
  have hr0 : 0 ≤ risk_factor cd := by
    unfold risk_factor
    apply le_min (by norm_num)
    linarith
  have hr1 := risk_factor_le_one cd
  have ht := total_pos cd
  have htot := total_eq cd
  have hm : (0:ℚ) ≤ max 0 (0.8 - risk_factor cd) := le_max_left _ _
  simp only [dr_probs, dr_probs_raw, List.map_cons, List.map_nil,
    List.mem_cons, List.not_mem_nil, or_false] at hp
  rcases hp with rfl | rfl | rfl | rfl | rfl
  · exact ⟨div_nonneg hm ht.le, by rw [div_le_one ht, htot]; linarith⟩
  · exact ⟨div_nonneg (by norm_num) ht.le,
      by rw [div_le_one ht, htot]; linarith⟩
  · exact ⟨div_nonneg (by linarith) ht.le,
      by rw [div_le_one ht, htot]; linarith⟩
  · exact ⟨div_nonneg (by linarith) ht.le,
      by rw [div_le_one ht, htot]; linarith⟩
  · exact ⟨div_nonneg (by linarith) ht.le,
      by rw [div_le_one ht, htot]; linarith⟩

/-- Witness for C1 amended at `baseInput`. -/
theorem C1_probabilities_amended_witness :
    ValidInput baseInput ∧
    (((dr_class_probabilities baseInput).map Prod.snd).sum = 1 ∧
     (0 ≤ baseInput.hba1c → 0 ≤ baseInput.diabetes_duration →
       ∀ p ∈ (dr_class_probabilities baseInput).map Prod.snd,
         0 ≤ p ∧ p ≤ 1)) :=
  ⟨by decide, C1_probabilities_amended baseInput (by decide)⟩

/-- C5 counterexample: on the valid input `negInput` (negative `hba1c`,
permitted by the schema) the overall risk-score value is -1/2 < 0, so the
claim that every risk-score value lies in [0,1] for every valid input is
false. -/
theorem C5_counterexample :
    ValidInput negInput ∧ (overall_risk_score negInput).value < 0 := by
  refine ⟨by decide, ?_⟩
  show risk_factor negInput < 0
  norm_num [risk_factor, negInput, baseInput, min_def]

/-- C5 amended: for every valid input the four risk-score values are
`risk_factor*1.0`, `min 1 (risk_factor*1.1)`, `min 1 (risk_factor*0.9)`,
`min 1 (risk_factor*1.05)` with fixed confidences 0.88, 0.82, 0.79, 0.84;
each value is at most 1, and all four lie in [0,1] whenever `hba1c` and
`diabetes_duration` are nonnegative (the lower bound can fail on the
negative inputs the schema permits). -/
theorem C5_risk_scores_amended (cd : ClinicalData) (h : ValidInput cd) :
    (overall_risk_score cd).value = risk_factor cd * 1.0 ∧
    (nephropathy_risk cd).value = min 1 (risk_factor cd * 1.1) ∧
    (neuropathy_risk cd).value = min 1 (risk_factor cd * 0.9) ∧
    (cardiovascular_risk cd).value = min 1 (risk_factor cd * 1.05) ∧
    (overall_risk_score cd).confidence = 0.88 ∧
    (nephropathy_risk cd).confidence = 0.82 ∧
    (neuropathy_risk cd).confidence = 0.79 ∧
    (cardiovascular_risk cd).confidence = 0.84 ∧
    (overall_risk_score cd).value ≤ 1 ∧ (nephropathy_risk cd).value ≤ 1 ∧
    (neuropathy_risk cd).value ≤ 1 ∧ (cardiovascular_risk cd).value ≤ 1 ∧
    (0 ≤ cd.hba1c → 0 ≤ cd.diabetes_duration →
      0 ≤ (overall_risk_score cd).value ∧ 0 ≤ (nephropathy_risk cd).value ∧
      0 ≤ (neuropathy_risk cd).value ∧ 0 ≤ (cardiovascular_risk cd).value) := by
  refine ⟨by norm_num [overall_risk_score], rfl, rfl, rfl, rfl, rfl, rfl, rfl,
    risk_factor_le_one cd, min_le_left _ _, min_le_left _ _, min_le_left _ _,
    fun h1 h2 => ?_⟩
  have h2q : (0:ℚ) ≤ (cd.diabetes_duration : ℚ) := by exact_mod_cast h2
  have hr0 : 0 ≤ risk_factor cd := by
    unfold risk_factor
    apply le_min (by norm_num)
    linarith
  refine ⟨hr0, ?_, ?_, ?_⟩ <;>
    exact le_min (by norm_num) (by nlinarith)

/-- Witness for C5 amended at `baseInput`. -/
theorem C5_risk_scores_amended_witness :
    ValidInput baseInput ∧
    ((overall_risk_score baseInput).value = risk_factor baseInput * 1.0 ∧
     (nephropathy_risk baseInput).value = min 1 (risk_factor baseInput * 1.1) ∧
     (neuropathy_risk baseInput).value = min 1 (risk_factor baseInput * 0.9) ∧
     (cardiovascular_risk baseInput).value =
       min 1 (risk_factor baseInput * 1.05) ∧
     (overall_risk_score baseInput).confidence = 0.88 ∧
     (nephropathy_risk baseInput).confidence = 0.82 ∧
     (neuropathy_risk baseInput).confidence = 0.79 ∧
     (cardiovascular_risk baseInput).confidence = 0.84 ∧
     (overall_risk_score baseInput).value ≤ 1 ∧
     (nephropathy_risk baseInput).value ≤ 1 ∧
     (neuropathy_risk baseInput).value ≤ 1 ∧
     (cardiovascular_risk baseInput).value ≤ 1 ∧
     (0 ≤ baseInput.hba1c → 0 ≤ baseInput.diabetes_duration →
       0 ≤ (overall_risk_score baseInput).value ∧
       0 ≤ (nephropathy_risk baseInput).value ∧
       0 ≤ (neuropathy_risk baseInput).value ∧
       0 ≤ (cardiovascular_risk baseInput).value)) :=
  ⟨by decide, C5_risk_scores_amended baseInput (by decide)⟩

/-- The three-way category pattern of the source, characterised by its
thresholds. -/
lemma tri_cat (r a b : ℚ) (hba : b ≤ a) :
    ((if r > a then "High" else if r > b then "Moderate" else "Low") =
        "High" ↔ a < r) ∧
    ((if r > a then "High" else if r > b then "Moderate" else "Low") =
        "Moderate" ↔ b < r ∧ r ≤ a) ∧
    ((if r > a then "High" else if r > b then "Moderate" else "Low") =
        "Low" ↔ r ≤ b) := by
  split_ifs with h1 h2
  · refine ⟨iff_of_true rfl h1, iff_of_false (by decide) ?_,
      iff_of_false (by decide) ?_⟩
    · rintro ⟨-, hle⟩
      exact absurd h1 (not_lt.mpr hle)
    · intro hle
      exact absurd h1 (not_lt.mpr (hle.trans hba))
  · refine ⟨iff_of_false (by decide) ?_,
      iff_of_true rfl ⟨h2, not_lt.mp h1⟩, iff_of_false (by decide) ?_⟩
    · exact fun hr => h1 hr
    · exact fun hle => absurd h2 (not_lt.mpr hle)
  · refine ⟨iff_of_false (by decide) ?_, iff_of_false (by decide) ?_,
      iff_of_true rfl (not_lt.mp h2)⟩
    · exact fun hr => h1 hr
    · exact fun hc => h2 hc.1

/-- C4 counterexample: on the valid input `nephInput`, `risk_factor = 0.58`
and the nephropathy value is `min 1 (0.58*1.1) = 0.638 > 0.6`, yet the code
assigns category "Moderate" because it compares `risk_factor`, not the
value, against the 0.6 boundary; the claim that categories are determined
by the score's value is false. -/
theorem C4_counterexample :
    ValidInput nephInput ∧ 0.6 < (nephropathy_risk nephInput).value ∧
    (nephropathy_risk nephInput).category = "Moderate" ∧
    (nephropathy_risk nephInput).category ≠ "High" := by
  have h : risk_factor nephInput = 29/50 := by
    norm_num [risk_factor, nephInput, baseInput, min_def]
  refine ⟨by decide, ?_, ?_, ?_⟩
  · show (0.6:ℚ) < min 1 (risk_factor nephInput * 1.1)
    rw [h]
    norm_num [min_def]
  · show (if risk_factor nephInput > 0.6 then "High"
      else if risk_factor nephInput > 0.3 then "Moderate" else "Low") =
      "Moderate"
    rw [h]
    norm_num
  · show (if risk_factor nephInput > 0.6 then "High"
      else if risk_factor nephInput > 0.3 then "Moderate" else "Low") ≠
      "High"
    rw [h]
    norm_num
    decide

/-- C4 amended: for every valid input, the category of each of the four risk
scores is determined by comparing `risk_factor` (not the score's own value)
to the literal boundaries: overall `High` iff `risk_factor > 0.7`,
`Moderate` iff `0.4 < risk_factor ≤ 0.7`, else `Low`; nephropathy with
boundaries 0.6/0.3; neuropathy 0.7/0.4; cardiovascular 0.65/0.35. -/
theorem C4_categories_amended (cd : ClinicalData) (h : ValidInput cd) :
    (((overall_risk_score cd).category = "High" ↔ 0.7 < risk_factor cd) ∧
     ((overall_risk_score cd).category = "Moderate" ↔
        0.4 < risk_factor cd ∧ risk_factor cd ≤ 0.7) ∧
     ((overall_risk_score cd).category = "Low" ↔ risk_factor cd ≤ 0.4)) ∧
    (((nephropathy_risk cd).category = "High" ↔ 0.6 < risk_factor cd) ∧
     ((nephropathy_risk cd).category = "Moderate" ↔
        0.3 < risk_factor cd ∧ risk_factor cd ≤ 0.6) ∧
     ((nephropathy_risk cd).category = "Low" ↔ risk_factor cd ≤ 0.3)) ∧
    (((neuropathy_risk cd).category = "High" ↔ 0.7 < risk_factor cd) ∧
     ((neuropathy_risk cd).category = "Moderate" ↔
        0.4 < risk_factor cd ∧ risk_factor cd ≤ 0.7) ∧
     ((neuropathy_risk cd).category = "Low" ↔ risk_factor cd ≤ 0.4)) ∧
    (((cardiovascular_risk cd).category = "High" ↔ 0.65 < risk_factor cd) ∧
     ((cardiovascular_risk cd).category = "Moderate" ↔
        0.35 < risk_factor cd ∧ risk_factor cd ≤ 0.65) ∧
     ((cardiovascular_risk cd).category = "Low" ↔ risk_factor cd ≤ 0.35)) := by
  refine ⟨?_, ?_, ?_, ?_⟩
  · simpa only [overall_risk_score] using
      tri_cat (risk_factor cd) 0.7 0.4 (by norm_num)
  · simpa only [nephropathy_risk] using
      tri_cat (risk_factor cd) 0.6 0.3 (by norm_num)
  · simpa only [neuropathy_risk] using
      tri_cat (risk_factor cd) 0.7 0.4 (by norm_num)
  · simpa only [cardiovascular_risk] using
      tri_cat (risk_factor cd) 0.65 0.35 (by norm_num)

/-- Witness for C4 amended at `baseInput`. -/
theorem C4_categories_amended_witness :
    ValidInput baseInput ∧
    ((((overall_risk_score baseInput).category = "High" ↔
         0.7 < risk_factor baseInput) ∧
      ((overall_risk_score baseInput).category = "Moderate" ↔
         0.4 < risk_factor baseInput ∧ risk_factor baseInput ≤ 0.7) ∧
      ((overall_risk_score baseInput).category = "Low" ↔
         risk_factor baseInput ≤ 0.4)) ∧
     (((nephropathy_risk baseInput).category = "High" ↔
         0.6 < risk_factor baseInput) ∧
      ((nephropathy_risk baseInput).category = "Moderate" ↔
         0.3 < risk_factor baseInput ∧ risk_factor baseInput ≤ 0.6) ∧
      ((nephropathy_risk baseInput).category = "Low" ↔
         risk_factor baseInput ≤ 0.3)) ∧
     (((neuropathy_risk baseInput).category = "High" ↔
         0.7 < risk_factor baseInput) ∧
      ((neuropathy_risk baseInput).category = "Moderate" ↔
         0.4 < risk_factor baseInput ∧ risk_factor baseInput ≤ 0.7) ∧
      ((neuropathy_risk baseInput).category = "Low" ↔
         risk_factor baseInput ≤ 0.4)) ∧
     (((cardiovascular_risk baseInput).category = "High" ↔
         0.65 < risk_factor baseInput) ∧
      ((cardiovascular_risk baseInput).category = "Moderate" ↔
         0.35 < risk_factor baseInput ∧ risk_factor baseInput ≤ 0.65) ∧
      ((cardiovascular_risk baseInput).category = "Low" ↔
         risk_factor baseInput ≤ 0.35))) :=
  ⟨by decide, C4_categories_amended baseInput (by decide)⟩

/-- C6: for every valid input, the predicted index is in range, `dr_stage`
and `dr_stage_probability` are read off at that index, the probability at
that index is maximal among the five normalized probabilities, and every
earlier index holds a strictly smaller probability (first-max argmax
tie-break). -/
theorem C6_argmax_stage (cd : ClinicalData) (h : ValidInput cd) :
    predicted_idx cd < 5 ∧
    dr_stage cd = dr_classes.getD (predicted_idx cd) "" ∧
    dr_stage_probability cd = (dr_probs cd).getD (predicted_idx cd) 0 ∧
    (∀ j < 5,
      (dr_probs cd).getD j 0 ≤ (dr_probs cd).getD (predicted_idx cd) 0) ∧
    (∀ j < predicted_idx cd,
      (dr_probs cd).getD j 0 < (dr_probs cd).getD (predicted_idx cd) 0) := by
  have hlen := dr_probs_length cd
  have hlt := np_argmax_lt_length (dr_probs cd) (dr_probs_ne_nil cd)
  rw [hlen] at hlt
  refine ⟨hlt, rfl, rfl, fun j hj => ?_,
    fun j hj => np_argmax_first_max (dr_probs cd) j hj⟩
  exact np_argmax_is_max (dr_probs cd) j (by rw [hlen]; exact hj)

/-- Witness for C6 at `severeInput`, where the predicted index is 3. -/
theorem C6_argmax_stage_witness :
    ValidInput severeInput ∧
    (predicted_idx severeInput < 5 ∧
     dr_stage severeInput = dr_classes.getD (predicted_idx severeInput) "" ∧
     dr_stage_probability severeInput =
       (dr_probs severeInput).getD (predicted_idx severeInput) 0 ∧
     (∀ j < 5, (dr_probs severeInput).getD j 0 ≤
        (dr_probs severeInput).getD (predicted_idx severeInput) 0) ∧
     (∀ j < predicted_idx severeInput,
        (dr_probs severeInput).getD j 0 <
          (dr_probs severeInput).getD (predicted_idx severeInput) 0)) :=
  ⟨by decide, C6_argmax_stage severeInput (by decide)⟩

/-- The tier message equals each of the three candidate strings exactly on
the corresponding `risk_factor` range. -/
lemma tier_msg_cases (cd : ClinicalData) :
    (tier_msg cd = urgent_msg ↔ 0.7 < risk_factor cd) ∧
    (tier_msg cd = followup_msg ↔
      0.4 < risk_factor cd ∧ risk_factor cd ≤ 0.7) ∧
    (tier_msg cd = continue_msg ↔ risk_factor cd ≤ 0.4) := by
  unfold tier_msg
  split_ifs with h1 h2
  · refine ⟨iff_of_true rfl h1, iff_of_false (by decide) ?_,
      iff_of_false (by decide) ?_⟩
    · rintro ⟨-, hle⟩
      exact absurd h1 (not_lt.mpr hle)
    · intro hle
      exact absurd h1 (not_lt.mpr (by linarith))
  · refine ⟨iff_of_false (by decide) h1,
      iff_of_true rfl ⟨h2, not_lt.mp h1⟩, iff_of_false (by decide) ?_⟩
    exact fun hle => absurd h2 (not_lt.mpr hle)
  · refine ⟨iff_of_false (by decide) h1, iff_of_false (by decide) ?_,
      iff_of_true rfl (not_lt.mp h2)⟩
    exact fun hc => h2 hc.1

/-- The tier message never collides with a threshold message. -/
lemma tier_msg_ne_threshold (cd : ClinicalData) :
    tier_msg cd ≠ glycemic_msg ∧ tier_msg cd ≠ bp_msg ∧
    tier_msg cd ≠ weight_msg ∧ tier_msg cd ≠ smoking_msg := by
  unfold tier_msg
  split_ifs <;> exact ⟨by decide, by decide, by decide, by decide⟩

/-- The tier message satisfies the tier predicate. -/
lemma tier_msg_pred (cd : ClinicalData) :
    (tier_msg cd == urgent_msg || tier_msg cd == followup_msg ||
      tier_msg cd == continue_msg) = true := by
  unfold tier_msg
  split_ifs <;> simp

/-- C7: for every valid input, each of the four threshold messages appears
exactly when its condition holds, the list ends with the tier message,
exactly one tier message occurs, and the three tier messages appear on
mutually exclusive `risk_factor` ranges (so at least one and never more
than one tier message is present). -/
theorem C7_recommendations_tiers (cd : ClinicalData) (h : ValidInput cd) :
    (glycemic_msg ∈ recommendations cd ↔ 7 < cd.hba1c) ∧
    (bp_msg ∈ recommendations cd ↔ 130 < cd.blood_pressure_systolic) ∧
    (weight_msg ∈ recommendations cd ↔ 25 < cd.bmi) ∧
    (smoking_msg ∈ recommendations cd ↔ cd.smoking_status = "current") ∧
    (recommendations cd).getLast? = some (tier_msg cd) ∧
    (recommendations cd).countP (fun s =>
      s == urgent_msg || s == followup_msg || s == continue_msg) = 1 ∧
    (urgent_msg ∈ recommendations cd ↔ 0.7 < risk_factor cd) ∧
    (followup_msg ∈ recommendations cd ↔
      0.4 < risk_factor cd ∧ risk_factor cd ≤ 0.7) ∧
    (continue_msg ∈ recommendations cd ↔ risk_factor cd ≤ 0.4) := by
  obtain ⟨tu, tf, tc⟩ := tier_msg_cases cd
  obtain ⟨n1, n2, n3, n4⟩ := tier_msg_ne_threshold cd
  have m1 : glycemic_msg ≠ tier_msg cd := fun e => n1 e.symm
  have m2 : bp_msg ≠ tier_msg cd := fun e => n2 e.symm
  have m3 : weight_msg ≠ tier_msg cd := fun e => n3 e.symm
  have m4 : smoking_msg ≠ tier_msg cd := fun e => n4 e.symm
  have tp := tier_msg_pred cd
  have memne : ∀ s : String, s ≠ glycemic_msg → s ≠ bp_msg →
      s ≠ weight_msg → s ≠ smoking_msg →
      (s ∈ recommendations cd ↔ s = tier_msg cd) := by
    intro s hs1 hs2 hs3 hs4
    unfold recommendations
    split_ifs <;> simp_all
  refine ⟨?_, ?_, ?_, ?_, ?_, ?_, ?_, ?_, ?_⟩
  · unfold recommendations
    split_ifs with h1 h2 h3 h4 <;>
      simp_all [glycemic_msg, bp_msg, weight_msg, smoking_msg]
  · unfold recommendations
    split_ifs with h1 h2 h3 h4 <;>
      simp_all [glycemic_msg, bp_msg, weight_msg, smoking_msg]
  · unfold recommendations
    split_ifs with h1 h2 h3 h4 <;>
      simp_all [glycemic_msg, bp_msg, weight_msg, smoking_msg]
  · unfold recommendations
    split_ifs with h1 h2 h3 h4 <;>
      simp_all [glycemic_msg, bp_msg, weight_msg, smoking_msg]
  · unfold recommendations
    simp only [← List.append_assoc, List.getLast?_concat]
  · have pg : (glycemic_msg == urgent_msg || glycemic_msg == followup_msg ||
        glycemic_msg == continue_msg) = false := by decide
    have pb : (bp_msg == urgent_msg || bp_msg == followup_msg ||
        bp_msg == continue_msg) = false := by decide
    have pw : (weight_msg == urgent_msg || weight_msg == followup_msg ||
        weight_msg == continue_msg) = false := by decide
    have ps : (smoking_msg == urgent_msg || smoking_msg == followup_msg ||
        smoking_msg == continue_msg) = false := by decide
    unfold recommendations
    split_ifs <;>
      simp [List.countP_cons, List.countP_nil, List.countP_append,
        pg, pb, pw, ps, tp]
  · rw [memne urgent_msg (by decide) (by decide) (by decide) (by decide),
      eq_comm]
    exact tu
  · rw [memne followup_msg (by decide) (by decide) (by decide) (by decide),
      eq_comm]
    exact tf
  · rw [memne continue_msg (by decide) (by decide) (by decide) (by decide),
      eq_comm]
    exact tc

/-- Witness for C7 at `severeInput`, where all four threshold rules fire and
the urgent tier is chosen. -/
theorem C7_recommendations_tiers_witness :
    ValidInput severeInput ∧
    ((glycemic_msg ∈ recommendations severeInput ↔
        7 < severeInput.hba1c) ∧
     (bp_msg ∈ recommendations severeInput ↔
        130 < severeInput.blood_pressure_systolic) ∧
     (weight_msg ∈ recommendations severeInput ↔ 25 < severeInput.bmi) ∧
     (smoking_msg ∈ recommendations severeInput ↔
        severeInput.smoking_status = "current") ∧
     (recommendations severeInput).getLast? =
       some (tier_msg severeInput) ∧
     (recommendations severeInput).countP (fun s =>
       s == urgent_msg || s == followup_msg || s == continue_msg) = 1 ∧
     (urgent_msg ∈ recommendations severeInput ↔
        0.7 < risk_factor severeInput) ∧
     (followup_msg ∈ recommendations severeInput ↔
        0.4 < risk_factor severeInput ∧ risk_factor severeInput ≤ 0.7) ∧
     (continue_msg ∈ recommendations severeInput ↔
        risk_factor severeInput ≤ 0.4)) :=
  ⟨by decide, C7_recommendations_tiers severeInput (by decide)⟩

/-- C8: for every pair of valid inputs, `follow_up` is exactly one of
{1, 3, 6}, characterised by the `risk_factor` thresholds 0.7 and 0.4, and
is antitone in `risk_factor`: a larger risk factor never receives a larger
follow-up interval. -/
theorem C8_follow_up_months (cd₁ cd₂ : ClinicalData)
    (h₁ : ValidInput cd₁) (h₂ : ValidInput cd₂) :
    follow_up cd₁ ∈ ({1, 3, 6} : Set ℕ) ∧
    (follow_up cd₁ = 1 ↔ 0.7 < risk_factor cd₁) ∧
    (follow_up cd₁ = 3 ↔ 0.4 < risk_factor cd₁ ∧ risk_factor cd₁ ≤ 0.7) ∧
    (follow_up cd₁ = 6 ↔ risk_factor cd₁ ≤ 0.4) ∧
    (risk_factor cd₁ ≤ risk_factor cd₂ → follow_up cd₂ ≤ follow_up cd₁) := by
  unfold follow_up
  refine ⟨?_, ?_, ?_, ?_, ?_⟩
  · split_ifs <;> simp
  · split_ifs with a1 a2
    · exact iff_of_true rfl a1
    · exact iff_of_false (by decide) a1
    · exact iff_of_false (by decide) a1
  · split_ifs with a1 a2
    · exact iff_of_false (by decide) fun hc => absurd a1 (not_lt.mpr hc.2)
    · exact iff_of_true rfl ⟨a2, not_lt.mp a1⟩
    · exact iff_of_false (by decide) fun hc => a2 hc.1
  · split_ifs with a1 a2
    · exact iff_of_false (by decide)
        fun hle => absurd a1 (not_lt.mpr (by linarith))
    · exact iff_of_false (by decide)
        fun hle => absurd a2 (not_lt.mpr hle)
    · exact iff_of_true rfl (not_lt.mp a2)
  · intro hle
    split_ifs <;> first | omega | (exfalso; linarith)

/-- Witness for C8 at `baseInput` (risk factor 0.4, follow-up 6) and
`severeInput` (risk factor 0.85, follow-up 1). -/
theorem C8_follow_up_months_witness :
    ValidInput baseInput ∧ ValidInput severeInput ∧
    (follow_up baseInput ∈ ({1, 3, 6} : Set ℕ) ∧
     (follow_up baseInput = 1 ↔ 0.7 < risk_factor baseInput) ∧
     (follow_up baseInput = 3 ↔
        0.4 < risk_factor baseInput ∧ risk_factor baseInput ≤ 0.7) ∧
     (follow_up baseInput = 6 ↔ risk_factor baseInput ≤ 0.4) ∧
     (risk_factor baseInput ≤ risk_factor severeInput →
        follow_up severeInput ≤ follow_up baseInput)) :=
  ⟨by decide, by decide, C8_follow_up_months baseInput severeInput
    (by decide) (by decide)⟩

/-- C3: on any valid input with hba1c 9.5, duration 15, systolic 140,
bmi 30, current smoker (remaining fields arbitrary), the code computes
`risk_factor = 0.85`, raw weights [0, 0.1, 0.22, 0.305, 0.17] with sum
0.795, the normalized probabilities obtained by dividing by 0.795,
predicted stage "Severe NPDR", all four threshold messages plus the
urgent-referral message in the recommendations, follow-up 1 month, and
overall category "High". -/
theorem C3_worked_example (cd : ClinicalData) (h : ValidInput cd)
    (h1 : cd.hba1c = 9.5) (h2 : cd.diabetes_duration = 15)
    (h3 : cd.blood_pressure_systolic = 140) (h4 : cd.bmi = 30)
    (h5 : cd.smoking_status = "current") :
    risk_factor cd = 0.85 ∧
    dr_probs_raw cd = [0, 0.1, 0.22, 0.305, 0.17] ∧
    total cd = 0.795 ∧
    dr_probs cd = [0, 0.1/0.795, 0.22/0.795, 0.305/0.795, 0.17/0.795] ∧
    dr_stage cd = "Severe NPDR" ∧
    glycemic_msg ∈ recommendations cd ∧ bp_msg ∈ recommendations cd ∧
    weight_msg ∈ recommendations cd ∧ smoking_msg ∈ recommendations cd ∧
    urgent_msg ∈ recommendations cd ∧
    follow_up cd = 1 ∧
    (overall_risk_score cd).category = "High" := by
  have hrf : risk_factor cd = 0.85 := by
    rw [risk_factor, h1, h2]
    norm_num [min_def]
  have hraw : dr_probs_raw cd = [0, 0.1, 0.22, 0.305, 0.17] := by
    rw [dr_probs_raw, hrf]
    norm_num [max_def]
  have htot : total cd = 0.795 := by
    rw [total, hraw]
    norm_num
  have hprobs : dr_probs cd =
      [0, 0.1/0.795, 0.22/0.795, 0.305/0.795, 0.17/0.795] := by
    rw [dr_probs, hraw, htot]
    norm_num
  have hidx : predicted_idx cd = 3 := by
    rw [predicted_idx, hprobs]
    norm_num [np_argmax, List.getD]
  have htier : tier_msg cd = urgent_msg := by
    rw [tier_msg, hrf]
    norm_num
  refine ⟨hrf, hraw, htot, hprobs, ?_, ?_, ?_, ?_, ?_, ?_, ?_, ?_⟩
  · rw [dr_stage, hidx]
    rfl
  · rw [recommendations]
    simp only [h1, h3, h4, h5]
    norm_num
  · rw [recommendations]
    simp only [h1, h3, h4, h5]
    norm_num
  · rw [recommendations]
    simp only [h1, h3, h4, h5]
    norm_num
  · rw [recommendations]
    simp only [h1, h3, h4, h5]
    norm_num
  · rw [recommendations, htier]
    simp
  · rw [follow_up, hrf]
    norm_num
  · show (if risk_factor cd > 0.7 then "High"
      else if risk_factor cd > 0.4 then "Moderate" else "Low") = "High"
    rw [hrf]
    norm_num

/-- Witness for C3 at `severeInput`. -/
theorem C3_worked_example_witness :
    (ValidInput severeInput ∧ severeInput.hba1c = 9.5 ∧
     severeInput.diabetes_duration = 15 ∧
     severeInput.blood_pressure_systolic = 140 ∧ severeInput.bmi = 30 ∧
     severeInput.smoking_status = "current") ∧
    (risk_factor severeInput = 0.85 ∧
     dr_probs_raw severeInput = [0, 0.1, 0.22, 0.305, 0.17] ∧
     total severeInput = 0.795 ∧
     dr_probs severeInput =
       [0, 0.1/0.795, 0.22/0.795, 0.305/0.795, 0.17/0.795] ∧
     dr_stage severeInput = "Severe NPDR" ∧
     glycemic_msg ∈ recommendations severeInput ∧
     bp_msg ∈ recommendations severeInput ∧
     weight_msg ∈ recommendations severeInput ∧
     smoking_msg ∈ recommendations severeInput ∧
     urgent_msg ∈ recommendations severeInput ∧
     follow_up severeInput = 1 ∧
     (overall_risk_score severeInput).category = "High") :=
  ⟨⟨by decide, by norm_num [severeInput], by decide, by decide,
    by norm_num [severeInput], rfl⟩,
   C3_worked_example severeInput (by decide) (by norm_num [severeInput])
     (by decide) (by decide) (by norm_num [severeInput]) rfl⟩

/-- C9: for every valid input, the modelled handler returns a
`PredictionResponse` (the body raises no exception on any input: the
normalization total is nonzero and the argmax index is in range); had the
body raised, the handler would report exactly a 500 carrying the raised
message as its only detail, and every error outcome of the handler is of
that form — there is no other error outcome from the computation tier. -/
theorem C9_error_handling (cd : ClinicalData) (h : ValidInput cd) :
    (∃ r, demo_analyze cd = Except.ok r) ∧
    (∀ msg, demo_analyze_body cd = Except.error msg →
      demo_analyze cd = Except.error { status_code := 500, detail := msg }) ∧
    (∀ e, demo_analyze cd = Except.error e →
      e.status_code = 500 ∧ demo_analyze_body cd = Except.error e.detail) ∧
    (∀ r, demo_analyze cd = Except.ok r ↔
      demo_analyze_body cd = Except.ok r) := by
  have hne : ¬(total cd = 0) := (total_pos cd).ne'
  have hidx : predicted_idx cd < dr_classes.length := by
    have hl := np_argmax_lt_length (dr_probs cd) (dr_probs_ne_nil cd)
    rw [dr_probs_length] at hl
    simpa [dr_classes] using hl
  have hok : demo_analyze_body cd = Except.ok
      { dr_stage := dr_stage cd,
        dr_stage_probability := dr_stage_probability cd,
        dr_class_probabilities := dr_class_probabilities cd,
        overall_risk_score := overall_risk_score cd,
        nephropathy_risk := nephropathy_risk cd,
        neuropathy_risk := neuropathy_risk cd,
        cardiovascular_risk := cardiovascular_risk cd,
        recommendations := recommendations cd,
        follow_up_months := follow_up cd,
        model_version := "v1.0.0-demo" } := by
    rw [demo_analyze_body, if_neg hne, if_pos hidx]
  refine ⟨?_, ?_, ?_, ?_⟩
  · exact ⟨_, by unfold demo_analyze; rw [hok]⟩
  · intro msg hmsg
    rw [hok] at hmsg
    exact absurd hmsg (by simp)
  · intro e he
    unfold demo_analyze at he
    rw [hok] at he
    exact absurd he (by simp)
  · intro r
    unfold demo_analyze
    rw [hok]
    simp

/-- Witness for C9 at `baseInput`. -/
theorem C9_error_handling_witness :
    ValidInput baseInput ∧
    ((∃ r, demo_analyze baseInput = Except.ok r) ∧
     (∀ msg, demo_analyze_body baseInput = Except.error msg →
       demo_analyze baseInput =
         Except.error { status_code := 500, detail := msg }) ∧
     (∀ e, demo_analyze baseInput = Except.error e →
       e.status_code = 500 ∧
       demo_analyze_body baseInput = Except.error e.detail) ∧
     (∀ r, demo_analyze baseInput = Except.ok r ↔
       demo_analyze_body baseInput = Except.ok r)) :=
  ⟨by decide, C9_error_handling baseInput (by decide)⟩

end DiabeticAI
